import Mathlib

/-!
# Ledger query functions of the blockchain package

A shallow embedding of `QueryHello` and `QueryLedgerTransactions`
(`blockchain/query.go`) together with a model of the parts of the Go
runtime they call: the channel client's `Query`, `fmt.Errorf`, `log`, and
`json.Unmarshal` of the standard library.

A call is modelled by the sequence of effects it performs (requests sent to
the client, `json.Unmarshal` calls, log lines) and by the way it ends: a
returned `(interface{}, error)` pair or a run-time panic.
-/

namespace Blockchain

/-! ## Go values -/

/-- A Go `[]byte`. -/
abbrev Bytes := List UInt8

/-- The conversion `[]byte(s)` of a Go string: its UTF-8 bytes. -/
def toBytes (s : String) : Bytes := s.toUTF8.data.toList

/-- A dynamic value held by an `interface{}`.  For the values stored by
`json.Unmarshal`, a number is kept as the text of its literal (which fixes the
`float64`) and a string as the bytes between its quotes (which fix the decoded
string); a `map[string]interface{}` is kept as its members in source order. -/
inductive GoValue where
  | nil
  | bool (b : Bool)
  | float64 (literal : Bytes)
  | string (s : String)
  | quoted (body : Bytes)
  | slice (elems : List GoValue)
  | map (members : List (Bytes × GoValue))

/-- A non-nil Go `error`, observed through its `Error()` text. -/
structure GoError where
  Error : String
deriving DecidableEq, Repr

/-- The call `fmt.Errorf("failed to query: %v", err)` for a non-nil `err`. -/
def Errorf_failed_to_query (err : GoError) : GoError :=
  ⟨"failed to query: " ++ err.Error⟩

/-! ## The JSON decoder of `encoding/json`

`json.Unmarshal(data, &v)` first runs the scanner over all of `data`
(`checkValid`); on a syntax error it returns the error and leaves `v`
untouched.  Otherwise it decodes the value.  The only decoding error possible
for an `interface{}` target is a number literal outside the range of
`float64` (`strconv.ParseFloat` fails): that error is saved, `nil` is stored
in place of the number, and decoding goes on.

The scanner is the pushdown automaton of `scanner.go`: one `step` per input
byte, a stack of open containers.  The value is built along the way.  Nesting
is unbounded, as in the Go releases the vendored SDK was written for (releases
from 1.15 on reject a payload nested deeper than 10000 as a syntax error). -/

/-- The errors `json.Unmarshal` can return here. -/
inductive JSONError where
  | SyntaxError
  | UnmarshalTypeError (value : Bytes)
deriving DecidableEq, Repr

/-- The states of the scanner (`scanner.step`). -/
inductive Step where
  | stateBeginValue | stateBeginValueOrEmpty | stateBeginStringOrEmpty | stateBeginString
  | stateEndValue | stateEndTop
  | stateInString | stateInStringEsc
  | stateInStringEscU | stateInStringEscU1 | stateInStringEscU12 | stateInStringEscU123
  | stateNeg | state1 | state0 | stateDot | stateDot0 | stateE | stateESign | stateE0
  | stateT | stateTr | stateTru
  | stateF | stateFa | stateFal | stateFals
  | stateN | stateNu | stateNul
deriving DecidableEq, Repr

/-- What the innermost open container is waiting for (`scanner.parseState`). -/
inductive ParseState where
  | parseObjectKey | parseObjectValue | parseArrayValue
deriving DecidableEq, Repr

/-- An open container: its parse state and what has been decoded of it. -/
structure Frame where
  ps : ParseState
  elems : List GoValue
  members : List (Bytes × GoValue)
  key : Bytes

/-- The scanner together with the decoder's partial results. -/
structure Scanner where
  step : Step
  parseState : List Frame
  literal : Bytes
  top : Option GoValue
  savedError : Option JSONError
  endTop : Bool

def isSpace (c : UInt8) : Bool :=
  c == 0x20 || c == 0x09 || c == 0x0D || c == 0x0A

def isDigit (c : UInt8) : Bool := 0x30 ≤ c && c ≤ 0x39

def isHex (c : UInt8) : Bool :=
  isDigit c || (0x61 ≤ c && c ≤ 0x66) || (0x41 ≤ c && c ≤ 0x46)

def digitsToNat (ds : Bytes) : Nat :=
  ds.foldl (fun n d => 10 * n + (d.toNat - 48)) 0

/-- The least magnitude that does not round to a finite `float64`, half-way
between the largest `float64` and `2^1024`: the number `2^1024 - 2^970`. -/
def float64Limit : Nat := (2 ^ 54 - 1) * (2 ^ 97) ^ 10

/-- Whether `strconv.ParseFloat(s, 64)` fails on a JSON number literal: the
decimal value, rounded to nearest even, does not fit a `float64`, that is, its
magnitude is at least `float64Limit`. -/
def float64OutOfRange (lit : Bytes) : Bool :=
  let body := match lit with
    | 0x2D :: r => r
    | r => r
  let intPart := body.takeWhile isDigit
  let r1 := body.dropWhile isDigit
  let frac := match r1 with
    | 0x2E :: r => r.takeWhile isDigit
    | _ => []
  let r2 := match r1 with
    | 0x2E :: r => r.dropWhile isDigit
    | r => r
  let expNeg := match r2 with
    | _ :: 0x2D :: _ => true
    | _ => false
  let expDigits := match r2 with
    | _ :: 0x2D :: ds => ds
    | _ :: 0x2B :: ds => ds
    | _ :: ds => ds
    | [] => []
  let m := digitsToNat (intPart ++ frac)
  let e := digitsToNat expDigits
  let limit := float64Limit
  if expNeg then decide (limit * 10 ^ (e + frac.length) ≤ m)
  else if frac.length ≤ e then decide (limit ≤ m * 10 ^ (e - frac.length))
  else decide (limit * 10 ^ (frac.length - e) ≤ m)

/-- The value of a finished literal (`decodeState.literalInterface`), with the
error of an out-of-range number. -/
def literalInterface (lit : Bytes) : GoValue × Option JSONError :=
  match lit with
  | 0x6E :: _ => (.nil, none)
  | 0x74 :: _ => (.bool true, none)
  | 0x66 :: _ => (.bool false, none)
  | 0x22 :: body => (.quoted body.dropLast, none)
  | _ =>
    if float64OutOfRange lit then (.nil, some (.UnmarshalTypeError (toBytes "number " ++ lit)))
    else (.float64 lit, none)

/-- Record a decoding error; the first one is kept (`decodeState.saveError`). -/
def saveError (saved new : Option JSONError) : Option JSONError :=
  match saved with
  | some e => some e
  | none => new

/-- A value `v` is finished: hand it to the innermost open container, or make
it the top-level value. -/
def Scanner.endValue (s : Scanner) (v : GoValue) : Scanner :=
  match s.parseState with
  | [] => { s with top := some v, literal := [] }
  | f :: rest =>
    match f.ps with
    | .parseObjectKey =>
      let k := match v with
        | .quoted body => body
        | _ => []
      { s with parseState := { f with key := k } :: rest, literal := [] }
    | .parseObjectValue =>
      { s with parseState := { f with members := f.members ++ [(f.key, v)] } :: rest, literal := [] }
    | .parseArrayValue =>
      { s with parseState := { f with elems := f.elems ++ [v] } :: rest, literal := [] }

/-- The literal being scanned is finished. -/
def Scanner.endLiteral (s : Scanner) : Scanner :=
  let r := literalInterface s.literal
  { s.endValue r.1 with savedError := saveError s.savedError r.2 }

/-- Close the innermost container (`scanner.popParseState`) and finish its value. -/
def Scanner.popParseState (s : Scanner) : Scanner :=
  match s.parseState with
  | [] => s
  | f :: rest =>
    let v := match f.ps with
      | .parseArrayValue => GoValue.slice f.elems
      | _ => GoValue.map f.members
    let s1 := { s with parseState := rest }
    let s2 := s1.endValue v
    match rest with
    | [] => { s2 with step := .stateEndTop, endTop := true }
    | _ => { s2 with step := .stateEndValue }

/-- A byte that continues the literal being scanned. -/
def Scanner.continueLiteral (s : Scanner) (c : UInt8) (next : Step) : Scanner :=
  { s with step := next, literal := s.literal ++ [c] }

/-- A byte that starts a literal. -/
def Scanner.beginLiteral (s : Scanner) (c : UInt8) (next : Step) : Scanner :=
  { s with step := next, literal := [c] }

/-- Open a container (`scanner.pushParseState`). -/
def Scanner.pushParseState (s : Scanner) (p : ParseState) (next : Step) : Scanner :=
  { s with step := next, parseState := ⟨p, [], [], []⟩ :: s.parseState }

/-- After the top-level value only white space may follow. -/
def stateEndTop (s : Scanner) (c : UInt8) : Option Scanner :=
  if isSpace c then some s else none

/-- After a value: a separator or the end of the enclosing container. -/
def stateEndValue (s : Scanner) (c : UInt8) : Option Scanner :=
  match s.parseState with
  | [] => stateEndTop { s with step := .stateEndTop, endTop := true } c
  | f :: rest =>
    if isSpace c then some { s with step := .stateEndValue }
    else match f.ps with
      | .parseObjectKey =>
        if c == 0x3A then
          some { s with parseState := { f with ps := .parseObjectValue } :: rest,
                        step := .stateBeginValue }
        else none
      | .parseObjectValue =>
        if c == 0x2C then
          some { s with parseState := { f with ps := .parseObjectKey } :: rest,
                        step := .stateBeginString }
        else if c == 0x7D then some s.popParseState
        else none
      | .parseArrayValue =>
        if c == 0x2C then some { s with step := .stateBeginValue }
        else if c == 0x5D then some s.popParseState
        else none

def stateBeginValue (s : Scanner) (c : UInt8) : Option Scanner :=
  if isSpace c then some s
  else if c == 0x7B then some (s.pushParseState .parseObjectKey .stateBeginStringOrEmpty)
  else if c == 0x5B then some (s.pushParseState .parseArrayValue .stateBeginValueOrEmpty)
  else if c == 0x22 then some (s.beginLiteral c .stateInString)
  else if c == 0x2D then some (s.beginLiteral c .stateNeg)
  else if c == 0x30 then some (s.beginLiteral c .state0)
  else if c == 0x74 then some (s.beginLiteral c .stateT)
  else if c == 0x66 then some (s.beginLiteral c .stateF)
  else if c == 0x6E then some (s.beginLiteral c .stateN)
  else if 0x31 ≤ c && c ≤ 0x39 then some (s.beginLiteral c .state1)
  else none

def stateBeginValueOrEmpty (s : Scanner) (c : UInt8) : Option Scanner :=
  if isSpace c then some s
  else if c == 0x5D then stateEndValue s c
  else stateBeginValue s c

def stateBeginString (s : Scanner) (c : UInt8) : Option Scanner :=
  if isSpace c then some s
  else if c == 0x22 then some (s.beginLiteral c .stateInString)
  else none

def stateBeginStringOrEmpty (s : Scanner) (c : UInt8) : Option Scanner :=
  if isSpace c then some s
  else if c == 0x7D then
    match s.parseState with
    | [] => none
    | f :: rest => stateEndValue { s with parseState := { f with ps := .parseObjectValue } :: rest } c
  else stateBeginString s c

def stateInString (s : Scanner) (c : UInt8) : Option Scanner :=
  if c == 0x22 then some (s.continueLiteral c .stateEndValue).endLiteral
  else if c == 0x5C then some (s.continueLiteral c .stateInStringEsc)
  else if c < 0x20 then none
  else some (s.continueLiteral c .stateInString)

def stateInStringEsc (s : Scanner) (c : UInt8) : Option Scanner :=
  if c == 0x62 || c == 0x66 || c == 0x6E || c == 0x72 || c == 0x74
      || c == 0x5C || c == 0x2F || c == 0x22 then
    some (s.continueLiteral c .stateInString)
  else if c == 0x75 then some (s.continueLiteral c .stateInStringEscU)
  else none

/-- One of the four hexadecimal digits of a unicode escape. -/
def stateHex (s : Scanner) (c : UInt8) (next : Step) : Option Scanner :=
  if isHex c then some (s.continueLiteral c next) else none

def state0 (s : Scanner) (c : UInt8) : Option Scanner :=
  if c == 0x2E then some (s.continueLiteral c .stateDot)
  else if c == 0x65 || c == 0x45 then some (s.continueLiteral c .stateE)
  else stateEndValue s.endLiteral c

def state1 (s : Scanner) (c : UInt8) : Option Scanner :=
  if isDigit c then some (s.continueLiteral c .state1)
  else state0 s c

def stateNeg (s : Scanner) (c : UInt8) : Option Scanner :=
  if c == 0x30 then some (s.continueLiteral c .state0)
  else if 0x31 ≤ c && c ≤ 0x39 then some (s.continueLiteral c .state1)
  else none

def stateDot (s : Scanner) (c : UInt8) : Option Scanner :=
  if isDigit c then some (s.continueLiteral c .stateDot0) else none

def stateDot0 (s : Scanner) (c : UInt8) : Option Scanner :=
  if isDigit c then some (s.continueLiteral c .stateDot0)
  else if c == 0x65 || c == 0x45 then some (s.continueLiteral c .stateE)
  else stateEndValue s.endLiteral c

def stateESign (s : Scanner) (c : UInt8) : Option Scanner :=
  if isDigit c then some (s.continueLiteral c .stateE0) else none

def stateE (s : Scanner) (c : UInt8) : Option Scanner :=
  if c == 0x2B || c == 0x2D then some (s.continueLiteral c .stateESign)
  else stateESign s c

def stateE0 (s : Scanner) (c : UInt8) : Option Scanner :=
  if isDigit c then some (s.continueLiteral c .stateE0)
  else stateEndValue s.endLiteral c

/-- One letter of `true`, `false` or `null`. -/
def stateLetter (s : Scanner) (c expected : UInt8) (next : Step) : Option Scanner :=
  if c == expected then some (s.continueLiteral c next) else none

/-- The last letter of `true`, `false` or `null`. -/
def stateLastLetter (s : Scanner) (c expected : UInt8) : Option Scanner :=
  if c == expected then some (s.continueLiteral c .stateEndValue).endLiteral else none

/-- One step of the scanner on the byte `c`; `none` is `scanError`. -/
def Scanner.next (s : Scanner) (c : UInt8) : Option Scanner :=
  match s.step with
  | .stateBeginValue => stateBeginValue s c
  | .stateBeginValueOrEmpty => stateBeginValueOrEmpty s c
  | .stateBeginStringOrEmpty => stateBeginStringOrEmpty s c
  | .stateBeginString => stateBeginString s c
  | .stateEndValue => stateEndValue s c
  | .stateEndTop => stateEndTop s c
  | .stateInString => stateInString s c
  | .stateInStringEsc => stateInStringEsc s c
  | .stateInStringEscU => stateHex s c .stateInStringEscU1
  | .stateInStringEscU1 => stateHex s c .stateInStringEscU12
  | .stateInStringEscU12 => stateHex s c .stateInStringEscU123
  | .stateInStringEscU123 => stateHex s c .stateInString
  | .stateNeg => stateNeg s c
  | .state1 => state1 s c
  | .state0 => state0 s c
  | .stateDot => stateDot s c
  | .stateDot0 => stateDot0 s c
  | .stateE => stateE s c
  | .stateESign => stateESign s c
  | .stateE0 => stateE0 s c
  | .stateT => stateLetter s c 0x72 .stateTr
  | .stateTr => stateLetter s c 0x75 .stateTru
  | .stateTru => stateLastLetter s c 0x65
  | .stateF => stateLetter s c 0x61 .stateFa
  | .stateFa => stateLetter s c 0x6C .stateFal
  | .stateFal => stateLetter s c 0x73 .stateFals
  | .stateFals => stateLastLetter s c 0x65
  | .stateN => stateLetter s c 0x75 .stateNu
  | .stateNu => stateLetter s c 0x6C .stateNul
  | .stateNul => stateLastLetter s c 0x6C

/-- The scanner before the first byte (`scanner.reset`). -/
def Scanner.reset : Scanner :=
  ⟨.stateBeginValue, [], [], none, none, false⟩

/-- The end of the input (`scanner.eof`): the top-level value must be complete. -/
def Scanner.eof (s : Scanner) : Option Scanner :=
  if s.endTop then some s
  else match s.next 0x20 with
    | some s1 => if s1.endTop then some s1 else none
    | none => none

/-- Run the scanner over the input from the state `s`. -/
def scanFrom (s : Scanner) : Bytes → Option Scanner
  | [] => s.eof
  | c :: rest =>
    match s.next c with
    | some s1 => scanFrom s1 rest
    | none => none

/-- The check `checkValid(data, &d.scan)`: whether `data` is one well-formed
JSON value. -/
def checkValid (data : Bytes) : Bool := (scanFrom Scanner.reset data).isSome

/-- The call `json.Unmarshal(data, &res)` for a fresh `var res interface{}`:
the value left in `res` and the error returned. -/
def jsonUnmarshal (data : Bytes) : GoValue × Option JSONError :=
  match scanFrom Scanner.reset data with
  | none => (.nil, some .SyntaxError)
  | some s =>
    match s.top with
    | some v => (v, s.savedError)
    | none => (.nil, s.savedError)

/-- The call `json.Unmarshal(data, &res)` for `res := make(map[string]interface{})`:
the value left in `res` and the error returned.  Only a JSON object is stored;
`null` empties the map and any other value is a type error. -/
def jsonUnmarshalMap (data : Bytes) : GoValue × Option JSONError :=
  match scanFrom Scanner.reset data with
  | none => (.map [], some .SyntaxError)
  | some s =>
    match s.top with
    | some (.map members) => (.map members, s.savedError)
    | some (.slice _) => (.map [], some (.UnmarshalTypeError (toBytes "array")))
    | some (.bool _) => (.map [], some (.UnmarshalTypeError (toBytes "bool")))
    | some (.quoted _) => (.map [], some (.UnmarshalTypeError (toBytes "string")))
    | some (.float64 _) => (.map [], some (.UnmarshalTypeError (toBytes "number")))
    | some .nil =>
      match s.savedError with
      | some _ => (.map [], some (.UnmarshalTypeError (toBytes "number")))
      | none => (.map [], none)
    | _ => (.map [], s.savedError)

/-! ## The types used by the query functions

The declarations of the SDK packages `chclient` and `apitxn` and of
`FabricSetup` (`setup.go`) are not among the sources.  The records below follow
the data model of the specification (section 3) and carry the fields that
`query.go` reads, under the names it reads them by.  The entries of
`Responses` and their `ProposalResponse` are taken to be present (not nil). -/

/-- Modelled from the spec: the declaration of `apitxn.TransactionID` is missing.
The opaque, network-assigned transaction ID of a `TransactionResult`. -/
structure TransactionID where
  ID : String
deriving DecidableEq, Repr

/-- Modelled from the spec: the declaration of `chclient.Request` is missing.
A `Transaction`: target contract, function name, ordered byte-sequence arguments. -/
structure Request where
  ChaincodeID : String
  Fcn : String
  Args : List Bytes
deriving DecidableEq, Repr

/-- Modelled from the spec: the declaration of `apitxn.TransactionProposal` is
missing.  The proposal an endorsement answers, with its transaction ID. -/
structure TransactionProposal where
  TxnID : TransactionID
deriving DecidableEq, Repr

/-- Modelled from the spec: the declaration of the peer's `ProposalResponse` is
missing.  The raw payload bytes of one peer's answer. -/
structure ProposalResponse where
  Payload : Bytes
deriving DecidableEq, Repr

/-- Modelled from the spec: the declaration of
`apitxn.TransactionProposalResponse` is missing.  An `EndorsementResponse`: one
peer's answer to a query. -/
structure TransactionProposalResponse where
  Proposal : TransactionProposal
  ProposalResponse : ProposalResponse
deriving DecidableEq, Repr

/-- Modelled from the spec: the declaration of `chclient.Response` is missing.
What the ledger network returns for a query: the payload, the transaction ID
and one endorsement per peer. -/
structure Response where
  Payload : Bytes
  TransactionID : TransactionID
  Responses : List TransactionProposalResponse
deriving DecidableEq, Repr

/-- Modelled from the spec: the declaration of `chclient.ChannelClient` is
missing.  The ledger network as a black box, reduced to `Query`: the response
and the error (`none` is a nil error) it gives for a request. -/
structure ChannelClient where
  Query : Request → Response × Option GoError

/-- Modelled from the spec: the declaration of `FabricSetup` (`setup.go`) is
missing.  The facade with its contract identifier and its connection handle;
`client` is `none` (a nil interface) until `Initialize` has set it. -/
structure FabricSetup where
  ChainCodeID : String
  client : Option ChannelClient

/-! ## Effects and outcomes -/

/-- An argument of a `log.Println` or `log.Printf` call. -/
inductive LogArg where
  | text (s : String)
  | value (v : GoValue)
  | bytes (b : Bytes)
  | errorText (e : JSONError)

/-- An effect of a call, in the order performed. -/
inductive Event where
  | query (request : Request)
  | unmarshal (data : Bytes)
  | log (args : List LogArg)

/-- A run-time panic. -/
inductive Panic where
  | nilDereference
deriving DecidableEq, Repr

/-- How a call ends: it returns its `(interface{}, error)` pair, or it panics. -/
inductive Outcome where
  | returned (result : GoValue) (err : Option GoError)
  | panicked (p : Panic)

/-- A call: its effects and its outcome. -/
structure Run where
  events : List Event
  outcome : Outcome

/-- The requests sent to the client, in order. -/
def requests : List Event → List Request
  | [] => []
  | .query r :: es => r :: requests es
  | _ :: es => requests es

/-- The byte strings handed to `json.Unmarshal`, in order. -/
def decoded : List Event → List Bytes
  | [] => []
  | .unmarshal d :: es => d :: decoded es
  | _ :: es => decoded es

/-! ## The query functions (`blockchain/query.go`) -/

/-- The function `QueryHello`: query the chaincode to get the state of hello. -/
def QueryHello (setup : FabricSetup) : Run :=
  let args : List String := (([] ++ ["invoke"]) ++ ["query"]) ++ ["hello"]
  match setup.client with
  | none => ⟨[], .panicked .nilDereference⟩
  | some client =>
    let request : Request :=
      ⟨setup.ChainCodeID, args.getD 0 "", [toBytes (args.getD 1 ""), toBytes (args.getD 2 "")]⟩
    match client.Query request with
    | (_, some err) =>
      ⟨[.query request], .returned (.string "") (some (Errorf_failed_to_query err))⟩
    | (response, none) =>
      let res := (jsonUnmarshalMap response.Payload).1
      ⟨[.query request,
        .unmarshal response.Payload,
        .log [.text "Response from query payload : ***************** ", .value res],
        .log [.text "Response from query payload : -----------------", .bytes response.Payload]],
       .returned (.string response.TransactionID.ID) none⟩

/-- The loop `for _, r := range response.Responses` of `QueryLedgerTransactions`:
each peer payload is decoded into a local that is dropped, and two lines are logged. -/
def rangeResponses : List TransactionProposalResponse → List Event
  | [] => []
  | r :: rs =>
    [.unmarshal r.ProposalResponse.Payload,
     .log [.text "Check ==========="],
     .log [.text r.Proposal.TxnID.ID]] ++ rangeResponses rs

/-- The function `QueryLedgerTransactions`. -/
def QueryLedgerTransactions (setup : FabricSetup) : Run :=
  let start : List Event := [.log [.text "Query Ledger Transactions"]]
  let args : List String := (([] ++ ["invoke"]) ++ ["getHistory"]) ++ ["hello"]
  match setup.client with
  | none => ⟨start, .panicked .nilDereference⟩
  | some client =>
    let request : Request :=
      ⟨setup.ChainCodeID, args.getD 0 "", [toBytes (args.getD 1 ""), toBytes (args.getD 2 "")]⟩
    match client.Query request with
    | (_, some err) =>
      ⟨start ++ [.query request], .returned (.string "") (some (Errorf_failed_to_query err))⟩
    | (response, none) =>
      let events := start ++ [.query request] ++ rangeResponses response.Responses ++
        [.log [.text "Response from query payload QueryLedgerTransactions : %s",
               .bytes response.Payload],
         .unmarshal response.Payload]
      match jsonUnmarshal response.Payload with
      | (_, none) => ⟨events, .panicked .nilDereference⟩
      | (res, some err) =>
        ⟨events ++ [.log [.text "Error in unmarshal = ", .errorText err]], .returned res none⟩

/-! ## The requests named by the specification -/

/-- The request the specification gives for `QueryHello`:
`{ChaincodeID: setup.ChainCodeID, Fcn: "invoke", Args: ["query", "hello"]}`. -/
def helloRequest (setup : FabricSetup) : Request :=
  ⟨setup.ChainCodeID, "invoke", [toBytes "query", toBytes "hello"]⟩

/-- The request the specification gives for `QueryLedgerTransactions`:
`{ChaincodeID: setup.ChainCodeID, Fcn: "invoke", Args: ["getHistory", "hello"]}`. -/
def historyRequest (setup : FabricSetup) : Request :=
  ⟨setup.ChainCodeID, "invoke", [toBytes "getHistory", toBytes "hello"]⟩

/-- A client that answers every request with the response `r` and a nil error. -/
def succeedWith (r : Response) : ChannelClient := ⟨fun _ => (r, none)⟩

/-- A client that answers every request with the error `e`. -/
def failWith (e : GoError) : ChannelClient := ⟨fun _ => (⟨[], ⟨""⟩, []⟩, some e)⟩

/-- A response with the payload `p`, the transaction ID `tx1` and no endorsements. -/
def payloadOnly (p : Bytes) : Response := ⟨p, ⟨"tx1"⟩, []⟩

/-- An endorsement of the transaction `id` whose payload is `p`. -/
def endorsement (id : String) (p : Bytes) : TransactionProposalResponse := ⟨⟨⟨id⟩⟩, ⟨p⟩⟩

/-- The effects of `QueryLedgerTransactions` up to and including the decoding of
the response payload. -/
def historyEvents (setup : FabricSetup) (response : Response) : List Event :=
  [.log [.text "Query Ledger Transactions"], .query (historyRequest setup)] ++
    rangeResponses response.Responses ++
    [.log [.text "Response from query payload QueryLedgerTransactions : %s",
           .bytes response.Payload],
     .unmarshal response.Payload]

/-- The history of the specification's scenario as the network delivers it:
`[{"tx":"t2","pos":2},{"tx":"t1","pos":1},{"tx":"t2","pos":2}]`. -/
def deliveredHistory : Bytes :=
  toBytes ("[\x7b\"tx\":\"t2\",\"pos\":2\x7d,\x7b\"tx\":\"t1\",\"pos\":1\x7d," ++
    "\x7b\"tx\":\"t2\",\"pos\":2\x7d]")

/-- A delivered history whose entries hold a state that no `float64` can hold:
`[{"tx":"t2","pos":2,"v":1e999},{"tx":"t1","pos":1,"v":1},{"tx":"t2","pos":2,"v":1e999}]`. -/
def deliveredLargeHistory : Bytes :=
  toBytes ("[\x7b\"tx\":\"t2\",\"pos\":2,\"v\":1e999\x7d,\x7b\"tx\":\"t1\",\"pos\":1,\"v\":1\x7d," ++
    "\x7b\"tx\":\"t2\",\"pos\":2,\"v\":1e999\x7d]")

/-- A decoded history entry: transaction, position and state. -/
def historyEntry (tx pos : String) (v : GoValue) : GoValue :=
  .map [(toBytes "tx", .quoted (toBytes tx)), (toBytes "pos", .float64 (toBytes pos)),
    (toBytes "v", v)]

/-- The only error a decoding can save: a number literal out of range. -/
def NumberError (e : Option JSONError) : Prop :=
  ∀ x, e = some x →
    ∃ lit, float64OutOfRange lit = true ∧ x = .UnmarshalTypeError (toBytes "number " ++ lit)

/-! ## Basic facts -/

theorem float64Limit_eq : float64Limit = 2 ^ 1024 - 2 ^ 970 := by
  norm_num [float64Limit]

theorem requests_append (xs ys : List Event) :
    requests (xs ++ ys) = requests xs ++ requests ys := by
  induction xs with
  | nil => rfl
  | cons e es ih => cases e <;> simp [requests, ih]

theorem decoded_append (xs ys : List Event) :
    decoded (xs ++ ys) = decoded xs ++ decoded ys := by
  induction xs with
  | nil => rfl
  | cons e es ih => cases e <;> simp [decoded, ih]

theorem requests_rangeResponses (rs : List TransactionProposalResponse) :
    requests (rangeResponses rs) = [] := by
  induction rs with
  | nil => rfl
  | cons r rs ih => simp [rangeResponses, requests, ih]

theorem decoded_rangeResponses (rs : List TransactionProposalResponse) :
    decoded (rangeResponses rs) = rs.map (fun r => r.ProposalResponse.Payload) := by
  induction rs with
  | nil => rfl
  | cons r rs ih => simp [rangeResponses, decoded, ih]

/-- A payload that is not well-formed is a syntax error and stores nothing. -/
theorem jsonUnmarshal_of_not_checkValid (data : Bytes) (h : checkValid data = false) :
    jsonUnmarshal data = (.nil, some .SyntaxError) := by
  unfold checkValid at h
  unfold jsonUnmarshal
  cases hs : scanFrom Scanner.reset data with
  | none => rfl
  | some s => simp [hs] at h

/-- The empty payload is not well-formed. -/
theorem checkValid_nil : checkValid [] = false := by decide

/-! ### The errors of the decoder -/

theorem endValue_savedError (s : Scanner) (v : GoValue) :
    (s.endValue v).savedError = s.savedError := by
  unfold Scanner.endValue
  split
  · rfl
  · split <;> rfl

theorem popParseState_savedError (s : Scanner) :
    s.popParseState.savedError = s.savedError := by
  unfold Scanner.popParseState
  split
  · rfl
  · rename_i f rest _
    cases rest <;> simp only [endValue_savedError]

theorem literalInterface_numberError (lit : Bytes) : NumberError (literalInterface lit).2 := by
  intro x hx
  unfold literalInterface at hx
  split at hx
  · cases hx
  · cases hx
  · cases hx
  · cases hx
  · split at hx
    · rename_i hr
      simp only [Option.some.injEq] at hx
      exact ⟨lit, hr, hx.symm⟩
    · cases hx

theorem endLiteral_numberError (s : Scanner) (hs : NumberError s.savedError) :
    NumberError s.endLiteral.savedError := by
  unfold Scanner.endLiteral
  simp only
  cases h : s.savedError with
  | some e => rw [h] at hs; simpa [saveError] using hs
  | none => simpa [saveError] using literalInterface_numberError s.literal

theorem stateEndTop_numberError {s s1 : Scanner} {c : UInt8}
    (h : stateEndTop s c = some s1) (hs : NumberError s.savedError) :
    NumberError s1.savedError := by
  unfold stateEndTop at h
  split_ifs at h
  cases h
  exact hs

theorem stateEndValue_numberError {s s1 : Scanner} {c : UInt8}
    (h : stateEndValue s c = some s1) (hs : NumberError s.savedError) :
    NumberError s1.savedError := by
  unfold stateEndValue at h
  split at h
  · exact stateEndTop_numberError h hs
  · rename_i f rest _
    by_cases hsp : isSpace c = true
    · rw [if_pos hsp] at h
      cases h
      exact hs
    · rw [if_neg hsp] at h
      cases hps : f.ps <;> simp only [hps] at h <;> split_ifs at h <;> cases h <;>
        first
          | exact hs
          | (rw [popParseState_savedError]; exact hs)

theorem stateBeginValue_numberError {s s1 : Scanner} {c : UInt8}
    (h : stateBeginValue s c = some s1) (hs : NumberError s.savedError) :
    NumberError s1.savedError := by
  unfold stateBeginValue at h
  repeat' split at h
  all_goals
    first
      | (obtain rfl := Option.some.inj h; exact hs)
      | cases h

theorem stateBeginValueOrEmpty_numberError {s s1 : Scanner} {c : UInt8}
    (h : stateBeginValueOrEmpty s c = some s1) (hs : NumberError s.savedError) :
    NumberError s1.savedError := by
  unfold stateBeginValueOrEmpty at h
  repeat' split at h
  all_goals
    first
      | (obtain rfl := Option.some.inj h; exact hs)
      | exact stateEndValue_numberError h hs
      | exact stateBeginValue_numberError h hs

theorem stateBeginString_numberError {s s1 : Scanner} {c : UInt8}
    (h : stateBeginString s c = some s1) (hs : NumberError s.savedError) :
    NumberError s1.savedError := by
  unfold stateBeginString at h
  repeat' split at h
  all_goals
    first
      | (obtain rfl := Option.some.inj h; exact hs)
      | cases h

theorem stateBeginStringOrEmpty_numberError {s s1 : Scanner} {c : UInt8}
    (h : stateBeginStringOrEmpty s c = some s1) (hs : NumberError s.savedError) :
    NumberError s1.savedError := by
  unfold stateBeginStringOrEmpty at h
  repeat' split at h
  all_goals
    first
      | (obtain rfl := Option.some.inj h; exact hs)
      | exact stateEndValue_numberError h hs
      | exact stateBeginString_numberError h hs
      | cases h

theorem stateInString_numberError {s s1 : Scanner} {c : UInt8}
    (h : stateInString s c = some s1) (hs : NumberError s.savedError) :
    NumberError s1.savedError := by
  unfold stateInString at h
  repeat' split at h
  all_goals
    first
      | (obtain rfl := Option.some.inj h; exact endLiteral_numberError _ hs)
      | (obtain rfl := Option.some.inj h; exact hs)
      | cases h

theorem stateInStringEsc_numberError {s s1 : Scanner} {c : UInt8}
    (h : stateInStringEsc s c = some s1) (hs : NumberError s.savedError) :
    NumberError s1.savedError := by
  unfold stateInStringEsc at h
  repeat' split at h
  all_goals
    first
      | (obtain rfl := Option.some.inj h; exact hs)
      | cases h

theorem stateHex_numberError {s s1 : Scanner} {c : UInt8} {next : Step}
    (h : stateHex s c next = some s1) (hs : NumberError s.savedError) :
    NumberError s1.savedError := by
  unfold stateHex at h
  repeat' split at h
  all_goals
    first
      | (obtain rfl := Option.some.inj h; exact hs)
      | cases h

theorem state0_numberError {s s1 : Scanner} {c : UInt8}
    (h : state0 s c = some s1) (hs : NumberError s.savedError) :
    NumberError s1.savedError := by
  unfold state0 at h
  repeat' split at h
  all_goals
    first
      | exact stateEndValue_numberError h (endLiteral_numberError _ hs)
      | (obtain rfl := Option.some.inj h; exact hs)

theorem state1_numberError {s s1 : Scanner} {c : UInt8}
    (h : state1 s c = some s1) (hs : NumberError s.savedError) :
    NumberError s1.savedError := by
  unfold state1 at h
  repeat' split at h
  all_goals
    first
      | exact state0_numberError h hs
      | (obtain rfl := Option.some.inj h; exact hs)

theorem stateNeg_numberError {s s1 : Scanner} {c : UInt8}
    (h : stateNeg s c = some s1) (hs : NumberError s.savedError) :
    NumberError s1.savedError := by
  unfold stateNeg at h
  repeat' split at h
  all_goals
    first
      | (obtain rfl := Option.some.inj h; exact hs)
      | cases h

theorem stateDot_numberError {s s1 : Scanner} {c : UInt8}
    (h : stateDot s c = some s1) (hs : NumberError s.savedError) :
    NumberError s1.savedError := by
  unfold stateDot at h
  repeat' split at h
  all_goals
    first
      | (obtain rfl := Option.some.inj h; exact hs)
      | cases h

theorem stateDot0_numberError {s s1 : Scanner} {c : UInt8}
    (h : stateDot0 s c = some s1) (hs : NumberError s.savedError) :
    NumberError s1.savedError := by
  unfold stateDot0 at h
  repeat' split at h
  all_goals
    first
      | exact stateEndValue_numberError h (endLiteral_numberError _ hs)
      | (obtain rfl := Option.some.inj h; exact hs)

theorem stateESign_numberError {s s1 : Scanner} {c : UInt8}
    (h : stateESign s c = some s1) (hs : NumberError s.savedError) :
    NumberError s1.savedError := by
  unfold stateESign at h
  repeat' split at h
  all_goals
    first
      | (obtain rfl := Option.some.inj h; exact hs)
      | cases h

theorem stateE_numberError {s s1 : Scanner} {c : UInt8}
    (h : stateE s c = some s1) (hs : NumberError s.savedError) :
    NumberError s1.savedError := by
  unfold stateE at h
  repeat' split at h
  all_goals
    first
      | exact stateESign_numberError h hs
      | (obtain rfl := Option.some.inj h; exact hs)

theorem stateE0_numberError {s s1 : Scanner} {c : UInt8}
    (h : stateE0 s c = some s1) (hs : NumberError s.savedError) :
    NumberError s1.savedError := by
  unfold stateE0 at h
  repeat' split at h
  all_goals
    first
      | exact stateEndValue_numberError h (endLiteral_numberError _ hs)
      | (obtain rfl := Option.some.inj h; exact hs)

theorem stateLetter_numberError {s s1 : Scanner} {c x : UInt8} {next : Step}
    (h : stateLetter s c x next = some s1) (hs : NumberError s.savedError) :
    NumberError s1.savedError := by
  unfold stateLetter at h
  repeat' split at h
  all_goals
    first
      | (obtain rfl := Option.some.inj h; exact hs)
      | cases h

theorem stateLastLetter_numberError {s s1 : Scanner} {c x : UInt8}
    (h : stateLastLetter s c x = some s1) (hs : NumberError s.savedError) :
    NumberError s1.savedError := by
  unfold stateLastLetter at h
  repeat' split at h
  all_goals
    first
      | (obtain rfl := Option.some.inj h; exact endLiteral_numberError _ hs)
      | cases h

/-- Every step of the scanner keeps the saved error a number error. -/
theorem next_numberError {s s1 : Scanner} {c : UInt8}
    (h : s.next c = some s1) (hs : NumberError s.savedError) :
    NumberError s1.savedError := by
  unfold Scanner.next at h
  split at h
  · exact stateBeginValue_numberError h hs
  · exact stateBeginValueOrEmpty_numberError h hs
  · exact stateBeginStringOrEmpty_numberError h hs
  · exact stateBeginString_numberError h hs
  · exact stateEndValue_numberError h hs
  · exact stateEndTop_numberError h hs
  · exact stateInString_numberError h hs
  · exact stateInStringEsc_numberError h hs
  · exact stateHex_numberError h hs
  · exact stateHex_numberError h hs
  · exact stateHex_numberError h hs
  · exact stateHex_numberError h hs
  · exact stateNeg_numberError h hs
  · exact state1_numberError h hs
  · exact state0_numberError h hs
  · exact stateDot_numberError h hs
  · exact stateDot0_numberError h hs
  · exact stateE_numberError h hs
  · exact stateESign_numberError h hs
  · exact stateE0_numberError h hs
  · exact stateLetter_numberError h hs
  · exact stateLetter_numberError h hs
  · exact stateLastLetter_numberError h hs
  · exact stateLetter_numberError h hs
  · exact stateLetter_numberError h hs
  · exact stateLetter_numberError h hs
  · exact stateLastLetter_numberError h hs
  · exact stateLetter_numberError h hs
  · exact stateLetter_numberError h hs
  · exact stateLastLetter_numberError h hs

theorem eof_numberError {s s1 : Scanner}
    (h : s.eof = some s1) (hs : NumberError s.savedError) :
    NumberError s1.savedError := by
  unfold Scanner.eof at h
  split_ifs at h
  · cases h; exact hs
  · split at h
    · rename_i s2 h2
      split_ifs at h
      cases h
      exact next_numberError h2 hs
    · cases h

theorem scanFrom_numberError (data : Bytes) {s s1 : Scanner}
    (h : scanFrom s data = some s1) (hs : NumberError s.savedError) :
    NumberError s1.savedError := by
  induction data generalizing s with
  | nil => exact eof_numberError h hs
  | cons c rest ih =>
    unfold scanFrom at h
    split at h
    · rename_i s2 h2
      exact ih h (next_numberError h2 hs)
    · cases h

/-- A well-formed payload decodes without error unless it holds a number
literal outside the range of `float64`; the error then names that literal. -/
theorem jsonUnmarshal_error_of_checkValid (data : Bytes) (err : JSONError)
    (hv : checkValid data = true) (he : (jsonUnmarshal data).2 = some err) :
    ∃ lit, float64OutOfRange lit = true ∧
      err = .UnmarshalTypeError (toBytes "number " ++ lit) := by
  unfold checkValid at hv
  unfold jsonUnmarshal at he
  cases hs : scanFrom Scanner.reset data with
  | none => simp [hs] at hv
  | some s =>
    have hn : NumberError s.savedError :=
      scanFrom_numberError data hs (by intro x hx; cases hx)
    rw [hs] at he
    simp only at he
    cases ht : s.top <;> rw [ht] at he <;> exact hn err he

/-! ### The runs of the query functions -/

/-- The run of `QueryHello` on an unset client. -/
theorem QueryHello_unset (setup : FabricSetup) (h : setup.client = none) :
    QueryHello setup = ⟨[], .panicked .nilDereference⟩ := by
  simp [QueryHello, h]

/-- The run of `QueryHello` when the client reports an error. -/
theorem QueryHello_failure (setup : FabricSetup) (client : ChannelClient) (e : GoError)
    (h : setup.client = some client) (hq : (client.Query (helloRequest setup)).2 = some e) :
    QueryHello setup =
      ⟨[.query (helloRequest setup)], .returned (.string "") (some (Errorf_failed_to_query e))⟩ := by
  have hreq : (⟨setup.ChainCodeID, "invoke", [toBytes "query", toBytes "hello"]⟩ : Request)
      = helloRequest setup := rfl
  simp only [QueryHello, h, List.nil_append, List.cons_append, List.getD_cons_zero,
    List.getD_cons_succ, hreq]
  cases hr : client.Query (helloRequest setup) with
  | mk r err =>
    rw [hr] at hq
    simp only at hq
    subst hq
    rfl

/-- The run of `QueryHello` when the client succeeds. -/
theorem QueryHello_success (setup : FabricSetup) (client : ChannelClient) (response : Response)
    (h : setup.client = some client) (hq : client.Query (helloRequest setup) = (response, none)) :
    QueryHello setup =
      ⟨[.query (helloRequest setup),
        .unmarshal response.Payload,
        .log [.text "Response from query payload : ***************** ",
              .value (jsonUnmarshalMap response.Payload).1],
        .log [.text "Response from query payload : -----------------", .bytes response.Payload]],
       .returned (.string response.TransactionID.ID) none⟩ := by
  have hreq : (⟨setup.ChainCodeID, "invoke", [toBytes "query", toBytes "hello"]⟩ : Request)
      = helloRequest setup := rfl
  simp only [QueryHello, h, List.nil_append, List.cons_append, List.getD_cons_zero,
    List.getD_cons_succ, hreq, hq]

/-- The run of `QueryLedgerTransactions` on an unset client. -/
theorem QueryLedgerTransactions_unset (setup : FabricSetup) (h : setup.client = none) :
    QueryLedgerTransactions setup =
      ⟨[.log [.text "Query Ledger Transactions"]], .panicked .nilDereference⟩ := by
  simp [QueryLedgerTransactions, h]

/-- The run of `QueryLedgerTransactions` when the client reports an error. -/
theorem QueryLedgerTransactions_failure (setup : FabricSetup) (client : ChannelClient)
    (e : GoError) (h : setup.client = some client)
    (hq : (client.Query (historyRequest setup)).2 = some e) :
    QueryLedgerTransactions setup =
      ⟨[.log [.text "Query Ledger Transactions"], .query (historyRequest setup)],
       .returned (.string "") (some (Errorf_failed_to_query e))⟩ := by
  have hreq : (⟨setup.ChainCodeID, "invoke", [toBytes "getHistory", toBytes "hello"]⟩ : Request)
      = historyRequest setup := rfl
  simp only [QueryLedgerTransactions, h, List.nil_append, List.cons_append,
    List.getD_cons_zero, List.getD_cons_succ, hreq]
  cases hr : client.Query (historyRequest setup) with
  | mk r err =>
    rw [hr] at hq
    simp only at hq
    subst hq
    rfl

/-- The run of `QueryLedgerTransactions` when the client succeeds and the
payload decodes without error: the nil error is dereferenced. -/
theorem QueryLedgerTransactions_decoded (setup : FabricSetup) (client : ChannelClient)
    (response : Response) (h : setup.client = some client)
    (hq : client.Query (historyRequest setup) = (response, none))
    (hd : (jsonUnmarshal response.Payload).2 = none) :
    QueryLedgerTransactions setup =
      ⟨historyEvents setup response, .panicked .nilDereference⟩ := by
  have hreq : (⟨setup.ChainCodeID, "invoke", [toBytes "getHistory", toBytes "hello"]⟩ : Request)
      = historyRequest setup := rfl
  simp only [QueryLedgerTransactions, h, List.nil_append, List.cons_append,
    List.getD_cons_zero, List.getD_cons_succ, hreq, hq]
  cases hj : jsonUnmarshal response.Payload with
  | mk v err =>
    rw [hj] at hd
    simp only at hd
    subst hd
    simp [historyEvents]

/-- The run of `QueryLedgerTransactions` when the client succeeds and decoding
the payload gives an error: the error is logged and a nil error returned. -/
theorem QueryLedgerTransactions_undecoded (setup : FabricSetup) (client : ChannelClient)
    (response : Response) (err : JSONError) (h : setup.client = some client)
    (hq : client.Query (historyRequest setup) = (response, none))
    (hd : (jsonUnmarshal response.Payload).2 = some err) :
    QueryLedgerTransactions setup =
      ⟨historyEvents setup response ++ [.log [.text "Error in unmarshal = ", .errorText err]],
       .returned (jsonUnmarshal response.Payload).1 none⟩ := by
  have hreq : (⟨setup.ChainCodeID, "invoke", [toBytes "getHistory", toBytes "hello"]⟩ : Request)
      = historyRequest setup := rfl
  simp only [QueryLedgerTransactions, h, List.nil_append, List.cons_append,
    List.getD_cons_zero, List.getD_cons_succ, hreq, hq]
  cases hj : jsonUnmarshal response.Payload with
  | mk v e =>
    rw [hj] at hd
    simp only at hd
    subst hd
    simp [historyEvents]

/-! ## C1: a result-or-error pair on every response -/

/-- C1, at its failing input: when the client succeeds with the well-formed
payload `[]`, or with `{"a":1}`, `QueryLedgerTransactions` does not return a
(result, error) pair: it panics on the nil decode error. -/
theorem C1_QueryLedgerTransactions_panics_on_wellformed_payload :
    (QueryLedgerTransactions
        ⟨"heroes-service", some (succeedWith (payloadOnly (toBytes "[]")))⟩).outcome
      = .panicked .nilDereference ∧
    (QueryLedgerTransactions
        ⟨"heroes-service", some (succeedWith (payloadOnly (toBytes "\x7b\"a\":1\x7d")))⟩).outcome
      = .panicked .nilDereference :=
  ⟨rfl, rfl⟩

/-! ## C2: the value returned by `QueryHello` -/

/-- C2, at its failing input: two successful responses that carry different
states `{"a":1}` and `{"a":2}` under the same transaction ID make `QueryHello`
return the same value, the transaction ID, and not the state in the payload. -/
theorem C2_QueryHello_returns_transaction_id_not_state :
    (QueryHello
        ⟨"heroes-service", some (succeedWith (payloadOnly (toBytes "\x7b\"a\":1\x7d")))⟩).outcome
      = .returned (.string "tx1") none ∧
    (QueryHello
        ⟨"heroes-service", some (succeedWith (payloadOnly (toBytes "\x7b\"a\":2\x7d")))⟩).outcome
      = .returned (.string "tx1") none ∧
    toBytes "\x7b\"a\":1\x7d" ≠ toBytes "\x7b\"a\":2\x7d" :=
  ⟨rfl, rfl, by decide⟩

/-! ## C3: a malformed payload -/

/-- C3 as stated fails: on a successful response whose payload `x` is not empty
and not well-formed JSON, `QueryHello` returns the transaction ID with a nil
error and `QueryLedgerTransactions` returns a nil result with a nil error. -/
theorem C3_malformed_payload_returns_nil_error :
    toBytes "x" ≠ [] ∧ checkValid (toBytes "x") = false ∧
    (QueryHello ⟨"heroes-service", some (succeedWith (payloadOnly (toBytes "x")))⟩).outcome
      = .returned (.string "tx1") none ∧
    (QueryLedgerTransactions
        ⟨"heroes-service", some (succeedWith (payloadOnly (toBytes "x")))⟩).outcome
      = .returned .nil none :=
  ⟨by decide, by decide, rfl, rfl⟩

/-- C3, amended: for every successful query response whose payload is not
well-formed JSON, `QueryHello` returns the response's transaction ID with a nil
error and `QueryLedgerTransactions` returns a nil result with a nil error; the
decode error is not returned by either. -/
theorem C3_malformed_payload_outcomes (setup : FabricSetup) (client : ChannelClient)
    (r1 r2 : Response) (h : setup.client = some client)
    (h1 : client.Query (helloRequest setup) = (r1, none))
    (h2 : client.Query (historyRequest setup) = (r2, none))
    (_m1 : checkValid r1.Payload = false) (m2 : checkValid r2.Payload = false) :
    (QueryHello setup).outcome = .returned (.string r1.TransactionID.ID) none ∧
    (QueryLedgerTransactions setup).outcome = .returned .nil none := by
  refine ⟨?_, ?_⟩
  · rw [QueryHello_success setup client r1 h h1]
  · have hj := jsonUnmarshal_of_not_checkValid r2.Payload m2
    have hd : (jsonUnmarshal r2.Payload).2 = some .SyntaxError := by rw [hj]
    rw [QueryLedgerTransactions_undecoded setup client r2 .SyntaxError h h2 hd, hj]

/-- C3, amended, at a concrete input: the payload `x`. -/
theorem C3_malformed_payload_outcomes_witness :
    checkValid (payloadOnly (toBytes "x")).Payload = false ∧
    (QueryHello ⟨"heroes-service", some (succeedWith (payloadOnly (toBytes "x")))⟩).outcome
      = .returned (.string (payloadOnly (toBytes "x")).TransactionID.ID) none ∧
    (QueryLedgerTransactions
        ⟨"heroes-service", some (succeedWith (payloadOnly (toBytes "x")))⟩).outcome
      = .returned .nil none :=
  ⟨by decide, C3_malformed_payload_outcomes
    ⟨"heroes-service", some (succeedWith (payloadOnly (toBytes "x")))⟩
    (succeedWith (payloadOnly (toBytes "x")))
    (payloadOnly (toBytes "x")) (payloadOnly (toBytes "x")) rfl rfl rfl (by decide) (by decide)⟩

/-! ## C4: endorsements that disagree -/

/-- C4 as stated fails: on a successful response whose two endorsements carry
the distinct payloads `x` and `y`, `QueryLedgerTransactions` returns a nil
error (with the nil result left by decoding the response payload `x`). -/
theorem C4_disagreeing_endorsements_return_nil_error :
    (endorsement "peer1" (toBytes "x")).ProposalResponse.Payload
      ≠ (endorsement "peer2" (toBytes "y")).ProposalResponse.Payload ∧
    (QueryLedgerTransactions
        ⟨"heroes-service", some (succeedWith ⟨toBytes "x", ⟨"tx1"⟩,
          [endorsement "peer1" (toBytes "x"), endorsement "peer2" (toBytes "y")]⟩)⟩).outcome
      = .returned .nil none :=
  ⟨by decide, rfl⟩

/-- C4, amended: `QueryLedgerTransactions` never compares the endorsements.
For every successful history response, the endorsement payloads are each handed
to `json.Unmarshal` (followed by the response payload) and the values dropped,
and two responses with the same payload end the call the same way, whatever
their endorsements are. -/
theorem C4_outcome_independent_of_endorsements (s1 s2 : FabricSetup)
    (c1 c2 : ChannelClient) (r1 r2 : Response)
    (h1 : s1.client = some c1) (h2 : s2.client = some c2)
    (q1 : c1.Query (historyRequest s1) = (r1, none))
    (q2 : c2.Query (historyRequest s2) = (r2, none))
    (hp : r1.Payload = r2.Payload) :
    (QueryLedgerTransactions s1).outcome = (QueryLedgerTransactions s2).outcome ∧
    decoded (QueryLedgerTransactions s1).events
      = r1.Responses.map (fun r => r.ProposalResponse.Payload) ++ [r1.Payload] := by
  cases hd : (jsonUnmarshal r1.Payload).2 with
  | none =>
    have hd2 : (jsonUnmarshal r2.Payload).2 = none := by rw [← hp]; exact hd
    rw [QueryLedgerTransactions_decoded s1 c1 r1 h1 q1 hd,
      QueryLedgerTransactions_decoded s2 c2 r2 h2 q2 hd2]
    simp [historyEvents, decoded_append, decoded_rangeResponses, decoded]
  | some err =>
    have hd2 : (jsonUnmarshal r2.Payload).2 = some err := by rw [← hp]; exact hd
    rw [QueryLedgerTransactions_undecoded s1 c1 r1 err h1 q1 hd,
      QueryLedgerTransactions_undecoded s2 c2 r2 err h2 q2 hd2]
    simp [historyEvents, decoded_append, decoded_rangeResponses, decoded, hp]

/-- C4, amended, at a concrete input: the payload `x` with two disagreeing
endorsements and with none. -/
theorem C4_outcome_independent_of_endorsements_witness :
    (QueryLedgerTransactions
        ⟨"heroes-service", some (succeedWith ⟨toBytes "x", ⟨"tx1"⟩,
          [endorsement "peer1" (toBytes "x"), endorsement "peer2" (toBytes "y")]⟩)⟩).outcome
      = (QueryLedgerTransactions
        ⟨"heroes-service", some (succeedWith (payloadOnly (toBytes "x")))⟩).outcome ∧
    decoded (QueryLedgerTransactions
        ⟨"heroes-service", some (succeedWith ⟨toBytes "x", ⟨"tx1"⟩,
          [endorsement "peer1" (toBytes "x"), endorsement "peer2" (toBytes "y")]⟩)⟩).events
      = [toBytes "x", toBytes "y"] ++ [toBytes "x"] :=
  C4_outcome_independent_of_endorsements
    ⟨"heroes-service", some (succeedWith ⟨toBytes "x", ⟨"tx1"⟩,
      [endorsement "peer1" (toBytes "x"), endorsement "peer2" (toBytes "y")]⟩)⟩
    ⟨"heroes-service", some (succeedWith (payloadOnly (toBytes "x")))⟩
    (succeedWith ⟨toBytes "x", ⟨"tx1"⟩,
      [endorsement "peer1" (toBytes "x"), endorsement "peer2" (toBytes "y")]⟩)
    (succeedWith (payloadOnly (toBytes "x")))
    ⟨toBytes "x", ⟨"tx1"⟩, [endorsement "peer1" (toBytes "x"), endorsement "peer2" (toBytes "y")]⟩
    (payloadOnly (toBytes "x")) rfl rfl rfl rfl rfl

/-! ## C5: the order of the history -/

/-- C5 as stated fails: on the delivered history of the scenario,
`QueryLedgerTransactions` returns no sequence at all, sorted or not. -/
theorem C5_delivered_history_not_returned_sorted :
    checkValid deliveredHistory = true ∧
    (QueryLedgerTransactions
        ⟨"heroes-service", some (succeedWith (payloadOnly deliveredHistory))⟩).outcome
      = .panicked .nilDereference :=
  ⟨by decide, rfl⟩

/-- C5, amended: `QueryLedgerTransactions` neither sorts nor deduplicates.
For every successful history response, a result it returns is exactly the value
`json.Unmarshal` stored for the response payload, and it comes with a nil error. -/
theorem C5_returned_history_is_decoded_payload (setup : FabricSetup) (client : ChannelClient)
    (response : Response) (v : GoValue) (e : Option GoError)
    (h : setup.client = some client)
    (hq : client.Query (historyRequest setup) = (response, none))
    (hr : (QueryLedgerTransactions setup).outcome = .returned v e) :
    v = (jsonUnmarshal response.Payload).1 ∧ e = none := by
  cases hd : (jsonUnmarshal response.Payload).2 with
  | none =>
    rw [QueryLedgerTransactions_decoded setup client response h hq hd] at hr
    cases hr
  | some err =>
    rw [QueryLedgerTransactions_undecoded setup client response err h hq hd] at hr
    cases hr
    exact ⟨rfl, rfl⟩

set_option exponentiation.threshold 1000 in
/-- C5, amended, at a concrete input: a delivered history out of order and with
a duplicate, whose states do not fit a `float64`, is returned in the delivered
order and with the duplicate. -/
theorem C5_returned_history_is_decoded_payload_witness :
    (QueryLedgerTransactions
        ⟨"heroes-service", some (succeedWith (payloadOnly deliveredLargeHistory))⟩).outcome
      = .returned (.slice [historyEntry "t2" "2" .nil, historyEntry "t1" "1" (.float64 (toBytes "1")),
          historyEntry "t2" "2" .nil]) none ∧
    GoValue.slice [historyEntry "t2" "2" .nil, historyEntry "t1" "1" (.float64 (toBytes "1")),
        historyEntry "t2" "2" .nil]
      = (jsonUnmarshal (payloadOnly deliveredLargeHistory).Payload).1 ∧
    (none : Option GoError) = none :=
  ⟨rfl, C5_returned_history_is_decoded_payload
    ⟨"heroes-service", some (succeedWith (payloadOnly deliveredLargeHistory))⟩
    (succeedWith (payloadOnly deliveredLargeHistory)) (payloadOnly deliveredLargeHistory)
    _ _ rfl rfl rfl⟩

/-! ## C6: a query before the connection exists -/

/-- C6 as stated fails: on a `FabricSetup` whose client is unset, `QueryHello`
and `QueryLedgerTransactions` return no error at all, `NotConnected` or other:
the call on the nil client panics. -/
theorem C6_unset_client_panics :
    (QueryHello ⟨"heroes-service", none⟩).outcome = .panicked .nilDereference ∧
    (QueryLedgerTransactions ⟨"heroes-service", none⟩).outcome = .panicked .nilDereference :=
  ⟨rfl, rfl⟩

/-- C6, amended: for every `FabricSetup` whose client is unset, `QueryHello`
and `QueryLedgerTransactions` issue no request to the client and do not return
a (result, error) pair: the call ends in the nil dereference of the client. -/
theorem C6_unset_client_no_request (setup : FabricSetup) (h : setup.client = none) :
    requests (QueryHello setup).events = [] ∧
    (QueryHello setup).outcome = .panicked .nilDereference ∧
    requests (QueryLedgerTransactions setup).events = [] ∧
    (QueryLedgerTransactions setup).outcome = .panicked .nilDereference := by
  rw [QueryHello_unset setup h, QueryLedgerTransactions_unset setup h]
  exact ⟨rfl, rfl, rfl, rfl⟩

/-- C6, amended, at a concrete input: the setup of `main.go` before `Initialize`. -/
theorem C6_unset_client_no_request_witness :
    requests (QueryHello ⟨"heroes-service", none⟩).events = [] ∧
    (QueryHello ⟨"heroes-service", none⟩).outcome = .panicked .nilDereference ∧
    requests (QueryLedgerTransactions ⟨"heroes-service", none⟩).events = [] ∧
    (QueryLedgerTransactions ⟨"heroes-service", none⟩).outcome = .panicked .nilDereference :=
  C6_unset_client_no_request ⟨"heroes-service", none⟩ rfl

/-! ## C7: one request per call -/

/-- C7: for every `FabricSetup` with a client, whatever the client answers, the
requests one call sends are exactly one request:
`{ChaincodeID: setup.ChainCodeID, Fcn: "invoke", Args: ["query", "hello"]}` for
`QueryHello` and the same with `Args: ["getHistory", "hello"]` for
`QueryLedgerTransactions`. -/
theorem C7_exactly_one_request (setup : FabricSetup) (client : ChannelClient)
    (h : setup.client = some client) :
    requests (QueryHello setup).events
      = [⟨setup.ChainCodeID, "invoke", [toBytes "query", toBytes "hello"]⟩] ∧
    requests (QueryLedgerTransactions setup).events
      = [⟨setup.ChainCodeID, "invoke", [toBytes "getHistory", toBytes "hello"]⟩] := by
  refine ⟨?_, ?_⟩
  · cases hr : client.Query (helloRequest setup) with
    | mk r err =>
      cases err with
      | none => rw [QueryHello_success setup client r h hr]; rfl
      | some e =>
        rw [QueryHello_failure setup client e h (by rw [hr])]; rfl
  · cases hr : client.Query (historyRequest setup) with
    | mk r err =>
      cases err with
      | some e =>
        rw [QueryLedgerTransactions_failure setup client e h (by rw [hr])]; rfl
      | none =>
        cases hd : (jsonUnmarshal r.Payload).2 with
        | none =>
          rw [QueryLedgerTransactions_decoded setup client r h hr hd]
          simp [historyEvents, requests, requests_append, requests_rangeResponses,
            historyRequest]
        | some e =>
          rw [QueryLedgerTransactions_undecoded setup client r e h hr hd]
          simp [historyEvents, requests, requests_append, requests_rangeResponses,
            historyRequest]

/-- C7 at concrete inputs: a client that fails, for `QueryHello`, and one that
succeeds with two endorsements, for `QueryLedgerTransactions`. -/
theorem C7_exactly_one_request_witness :
    requests (QueryHello ⟨"heroes-service", some (failWith ⟨"timeout"⟩)⟩).events
      = [⟨"heroes-service", "invoke", [toBytes "query", toBytes "hello"]⟩] ∧
    requests (QueryLedgerTransactions
        ⟨"heroes-service", some (succeedWith ⟨toBytes "x", ⟨"tx1"⟩,
          [endorsement "peer1" (toBytes "x"), endorsement "peer2" (toBytes "y")]⟩)⟩).events
      = [⟨"heroes-service", "invoke", [toBytes "getHistory", toBytes "hello"]⟩] :=
  ⟨(C7_exactly_one_request ⟨"heroes-service", some (failWith ⟨"timeout"⟩)⟩
      (failWith ⟨"timeout"⟩) rfl).1,
   (C7_exactly_one_request
      ⟨"heroes-service", some (succeedWith ⟨toBytes "x", ⟨"tx1"⟩,
        [endorsement "peer1" (toBytes "x"), endorsement "peer2" (toBytes "y")]⟩)⟩
      (succeedWith ⟨toBytes "x", ⟨"tx1"⟩,
        [endorsement "peer1" (toBytes "x"), endorsement "peer2" (toBytes "y")]⟩) rfl).2⟩

/-! ## C8: a failure of the network -/

/-- C8: for every error `e` returned by the client's `Query`, `QueryHello` and
`QueryLedgerTransactions` each return the empty string with a non-nil error
whose message is `failed to query: ` followed by the message of `e`, and hand
nothing to `json.Unmarshal`; and `QueryHello` returns a non-nil error only when
the client's `Query` returned one. -/
theorem C8_network_failure_is_returned (setup : FabricSetup) (client : ChannelClient)
    (h : setup.client = some client) :
    (∀ e, (client.Query (helloRequest setup)).2 = some e →
      (QueryHello setup).outcome
        = .returned (.string "") (some ⟨"failed to query: " ++ e.Error⟩) ∧
      decoded (QueryHello setup).events = []) ∧
    (∀ e, (client.Query (historyRequest setup)).2 = some e →
      (QueryLedgerTransactions setup).outcome
        = .returned (.string "") (some ⟨"failed to query: " ++ e.Error⟩) ∧
      decoded (QueryLedgerTransactions setup).events = []) ∧
    (∀ v err, (QueryHello setup).outcome = .returned v (some err) →
      ∃ e, (client.Query (helloRequest setup)).2 = some e) := by
  refine ⟨?_, ?_, ?_⟩
  · intro e he
    rw [QueryHello_failure setup client e h he]
    exact ⟨rfl, rfl⟩
  · intro e he
    rw [QueryLedgerTransactions_failure setup client e h he]
    exact ⟨rfl, rfl⟩
  · intro v err hr
    cases hq : client.Query (helloRequest setup) with
    | mk r e =>
      cases e with
      | some e => exact ⟨e, rfl⟩
      | none =>
        rw [QueryHello_success setup client r h hq] at hr
        cases hr

/-- C8 at a concrete input: a client whose `Query` fails with `timeout`. -/
theorem C8_network_failure_is_returned_witness :
    (QueryHello ⟨"heroes-service", some (failWith ⟨"timeout"⟩)⟩).outcome
      = .returned (.string "") (some ⟨"failed to query: timeout"⟩) ∧
    (QueryLedgerTransactions ⟨"heroes-service", some (failWith ⟨"timeout"⟩)⟩).outcome
      = .returned (.string "") (some ⟨"failed to query: timeout"⟩) :=
  ⟨((C8_network_failure_is_returned ⟨"heroes-service", some (failWith ⟨"timeout"⟩)⟩
      (failWith ⟨"timeout"⟩) rfl).1 ⟨"timeout"⟩ rfl).1,
   ((C8_network_failure_is_returned ⟨"heroes-service", some (failWith ⟨"timeout"⟩)⟩
      (failWith ⟨"timeout"⟩) rfl).2.1 ⟨"timeout"⟩ rfl).1⟩

/-! ## C9: the empty payload -/

/-- C9 as stated fails: on a successful response with the empty payload and on
one with the malformed payload `x`, `QueryLedgerTransactions` returns the same
pair, a nil result with a nil error. -/
theorem C9_empty_and_malformed_payload_same_outcome :
    toBytes "x" ≠ [] ∧ checkValid (toBytes "x") = false ∧
    (QueryLedgerTransactions ⟨"heroes-service", some (succeedWith (payloadOnly []))⟩).outcome
      = .returned .nil none ∧
    (QueryLedgerTransactions
        ⟨"heroes-service", some (succeedWith (payloadOnly (toBytes "x")))⟩).outcome
      = .returned .nil none :=
  ⟨by decide, by decide, rfl, rfl⟩

/-- C9, amended: for every successful query response whose payload has length
zero, `QueryLedgerTransactions` does not panic and returns a nil result with a
nil error; this is the same pair it returns for a successful response whose
payload is non-empty and not well-formed JSON. -/
theorem C9_empty_payload_outcome (s1 s2 : FabricSetup) (c1 c2 : ChannelClient)
    (r1 r2 : Response) (h1 : s1.client = some c1) (h2 : s2.client = some c2)
    (q1 : c1.Query (historyRequest s1) = (r1, none))
    (q2 : c2.Query (historyRequest s2) = (r2, none))
    (he : r1.Payload.length = 0) (_hn : r2.Payload ≠ [])
    (hm : checkValid r2.Payload = false) :
    (QueryLedgerTransactions s1).outcome = .returned .nil none ∧
    (QueryLedgerTransactions s2).outcome = (QueryLedgerTransactions s1).outcome := by
  have he1 : r1.Payload = [] := List.length_eq_zero.mp he
  have hj1 : jsonUnmarshal r1.Payload = (.nil, some .SyntaxError) := by
    rw [he1]; exact jsonUnmarshal_of_not_checkValid [] checkValid_nil
  have hj2 := jsonUnmarshal_of_not_checkValid r2.Payload hm
  rw [QueryLedgerTransactions_undecoded s1 c1 r1 .SyntaxError h1 q1 (by rw [hj1]),
    QueryLedgerTransactions_undecoded s2 c2 r2 .SyntaxError h2 q2 (by rw [hj2]), hj1, hj2]
  exact ⟨rfl, rfl⟩

/-- C9, amended, at a concrete input: the empty payload and the payload `x`. -/
theorem C9_empty_payload_outcome_witness :
    (QueryLedgerTransactions ⟨"heroes-service", some (succeedWith (payloadOnly []))⟩).outcome
      = .returned .nil none ∧
    (QueryLedgerTransactions
        ⟨"heroes-service", some (succeedWith (payloadOnly (toBytes "x")))⟩).outcome
      = (QueryLedgerTransactions
        ⟨"heroes-service", some (succeedWith (payloadOnly []))⟩).outcome :=
  C9_empty_payload_outcome
    ⟨"heroes-service", some (succeedWith (payloadOnly []))⟩
    ⟨"heroes-service", some (succeedWith (payloadOnly (toBytes "x")))⟩
    (succeedWith (payloadOnly [])) (succeedWith (payloadOnly (toBytes "x")))
    (payloadOnly []) (payloadOnly (toBytes "x")) rfl rfl rfl rfl rfl (by decide) (by decide)

/-! ## C10: the outcome on a successful network call -/

set_option exponentiation.threshold 1000 in
/-- C10 as stated fails: on the well-formed payload `[1e999]`, whose number no
`float64` can hold, decoding gives an error and `QueryLedgerTransactions`
returns normally with a result that is not nil: the partly decoded `[nil]`. -/
theorem C10_returns_partly_decoded_value :
    checkValid (toBytes "[1e999]") = true ∧
    (jsonUnmarshal (toBytes "[1e999]")).2
      = some (.UnmarshalTypeError (toBytes "number 1e999")) ∧
    (QueryLedgerTransactions
        ⟨"heroes-service", some (succeedWith (payloadOnly (toBytes "[1e999]")))⟩).outcome
      = .returned (.slice [.nil]) none :=
  ⟨rfl, rfl, rfl⟩

/-- C10, amended: for every successful query response, `QueryLedgerTransactions`
returns normally if and only if `json.Unmarshal` of the response payload
returns an error; a pair it returns is the value `json.Unmarshal` left in `res`
with a nil error, which is (nil, nil) when the payload is not well-formed JSON
and is not nil only when the payload is well-formed and holds a number outside
the range of `float64`; and when the payload decodes
without error the nil decode error is dereferenced and the call panics. -/
theorem C10_outcome_on_success (setup : FabricSetup) (client : ChannelClient)
    (response : Response) (h : setup.client = some client)
    (hq : client.Query (historyRequest setup) = (response, none)) :
    ((∃ v e, (QueryLedgerTransactions setup).outcome = .returned v e) ↔
      (jsonUnmarshal response.Payload).2 ≠ none) ∧
    (∀ v e, (QueryLedgerTransactions setup).outcome = .returned v e →
      v = (jsonUnmarshal response.Payload).1 ∧ e = none) ∧
    (checkValid response.Payload = false →
      (QueryLedgerTransactions setup).outcome = .returned .nil none) ∧
    (∀ v e, (QueryLedgerTransactions setup).outcome = .returned v e → v ≠ .nil →
      checkValid response.Payload = true ∧
      ∃ lit, float64OutOfRange lit = true ∧
        (jsonUnmarshal response.Payload).2
          = some (.UnmarshalTypeError (toBytes "number " ++ lit))) ∧
    ((jsonUnmarshal response.Payload).2 = none →
      (QueryLedgerTransactions setup).outcome = .panicked .nilDereference) := by
  cases hd : (jsonUnmarshal response.Payload).2 with
  | none =>
    rw [QueryLedgerTransactions_decoded setup client response h hq hd]
    refine ⟨⟨?_, ?_⟩, ?_, ?_, ?_, ?_⟩
    · rintro ⟨v, e, hr⟩
      cases hr
    · intro hne
      exact absurd rfl hne
    · intro v e hr
      cases hr
    · intro hv
      rw [jsonUnmarshal_of_not_checkValid response.Payload hv] at hd
      cases hd
    · intro v e hr
      cases hr
    · intro _
      rfl
  | some err =>
    rw [QueryLedgerTransactions_undecoded setup client response err h hq hd]
    refine ⟨⟨?_, ?_⟩, ?_, ?_, ?_, ?_⟩
    · intro _ hn
      cases hn
    · intro _
      exact ⟨_, _, rfl⟩
    · intro v e hr
      cases hr
      exact ⟨rfl, rfl⟩
    · intro hv
      rw [jsonUnmarshal_of_not_checkValid response.Payload hv]
    · intro v e hr hnil
      cases hr
      have hv : checkValid response.Payload = true := by
        cases hc : checkValid response.Payload with
        | true => rfl
        | false =>
          rw [jsonUnmarshal_of_not_checkValid response.Payload hc] at hnil
          exact absurd rfl hnil
      obtain ⟨lit, hl, he⟩ := jsonUnmarshal_error_of_checkValid response.Payload err hv hd
      exact ⟨hv, lit, hl, by rw [he]⟩
    · intro hn
      cases hn

set_option exponentiation.threshold 1000 in
/-- C10, amended, at a concrete input: the payload `[1e999]`. -/
theorem C10_outcome_on_success_witness :
    (QueryLedgerTransactions
        ⟨"heroes-service", some (succeedWith (payloadOnly (toBytes "[1e999]")))⟩).outcome
      = .returned (jsonUnmarshal (toBytes "[1e999]")).1 none ∧
    ∃ lit, float64OutOfRange lit = true ∧
      (jsonUnmarshal (payloadOnly (toBytes "[1e999]")).Payload).2
        = some (.UnmarshalTypeError (toBytes "number " ++ lit)) :=
  ⟨rfl, ((C10_outcome_on_success
    ⟨"heroes-service", some (succeedWith (payloadOnly (toBytes "[1e999]")))⟩
    (succeedWith (payloadOnly (toBytes "[1e999]"))) (payloadOnly (toBytes "[1e999]"))
    rfl rfl).2.2.2.1 (.slice [.nil]) none rfl (fun hn => GoValue.noConfusion hn)).2⟩

/-! ## C11: the payload and the result of `QueryHello` -/

/-- C11: for every two successful query responses with the same
`TransactionID.ID`, `QueryHello` returns the same pair, that transaction ID
with a nil error, whatever the two payloads are and whether or not they decode
as JSON; each payload is handed to `json.Unmarshal` once and what comes back is
not part of the result. -/
theorem C11_QueryHello_result_independent_of_payload (s1 s2 : FabricSetup)
    (c1 c2 : ChannelClient) (r1 r2 : Response)
    (h1 : s1.client = some c1) (h2 : s2.client = some c2)
    (q1 : c1.Query (helloRequest s1) = (r1, none))
    (q2 : c2.Query (helloRequest s2) = (r2, none))
    (hid : r1.TransactionID.ID = r2.TransactionID.ID) :
    (QueryHello s1).outcome = .returned (.string r1.TransactionID.ID) none ∧
    (QueryHello s2).outcome = .returned (.string r1.TransactionID.ID) none ∧
    decoded (QueryHello s1).events = [r1.Payload] ∧
    decoded (QueryHello s2).events = [r2.Payload] := by
  rw [QueryHello_success s1 c1 r1 h1 q1, QueryHello_success s2 c2 r2 h2 q2, hid]
  exact ⟨rfl, rfl, rfl, rfl⟩

/-- C11 at a concrete input: the payload `{"b":2}`, which decodes, and the
payload `y`, which does not, under the same transaction ID. -/
theorem C11_QueryHello_result_independent_of_payload_witness :
    checkValid (toBytes "\x7b\"b\":2\x7d") = true ∧ checkValid (toBytes "y") = false ∧
    (QueryHello
        ⟨"heroes-service", some (succeedWith (payloadOnly (toBytes "\x7b\"b\":2\x7d")))⟩).outcome
      = .returned (.string "tx1") none ∧
    (QueryHello ⟨"heroes-service", some (succeedWith (payloadOnly (toBytes "y")))⟩).outcome
      = .returned (.string "tx1") none :=
  ⟨by decide, by decide,
   (C11_QueryHello_result_independent_of_payload
      ⟨"heroes-service", some (succeedWith (payloadOnly (toBytes "\x7b\"b\":2\x7d")))⟩
      ⟨"heroes-service", some (succeedWith (payloadOnly (toBytes "y")))⟩
      (succeedWith (payloadOnly (toBytes "\x7b\"b\":2\x7d")))
      (succeedWith (payloadOnly (toBytes "y")))
      (payloadOnly (toBytes "\x7b\"b\":2\x7d")) (payloadOnly (toBytes "y"))
      rfl rfl rfl rfl rfl).1,
   (C11_QueryHello_result_independent_of_payload
      ⟨"heroes-service", some (succeedWith (payloadOnly (toBytes "\x7b\"b\":2\x7d")))⟩
      ⟨"heroes-service", some (succeedWith (payloadOnly (toBytes "y")))⟩
      (succeedWith (payloadOnly (toBytes "\x7b\"b\":2\x7d")))
      (succeedWith (payloadOnly (toBytes "y")))
      (payloadOnly (toBytes "\x7b\"b\":2\x7d")) (payloadOnly (toBytes "y"))
      rfl rfl rfl rfl rfl).2.1⟩

end Blockchain
